import Mathlib

set_option maxHeartbeats 1000000

/-!
Shallow embedding of the stderrlog crate (src/lib.rs).

Module paths are byte strings, modelled as `List Nat`; the path separator
"::" is the byte pair `[58, 58]`.  The `modules` field of `StdErrLog` is a
`Vec<String>`, modelled as `List (List Nat)`.

Rust's `Vec::binary_search` (resp. `binary_search_by` with the same byte
comparison) is modelled by its documented contract on a sorted,
duplicate-free vector: it returns `Ok` exactly when the key is an element of
the vector, and the `Err` insertion index is the number of elements strictly
below the key in byte-lexicographic order.  All module vectors of the
program are produced by `_module` starting from the empty vector and are
sorted and duplicate-free, so the model agrees with the code on every
reachable state.
-/

/-- Byte-wise lexicographic strict order on byte strings, matching Rust's
`Ord` for `[u8]` / `String`: the first differing byte decides, and a proper
byte-prefix is smaller. -/
def bytesLt : List Nat → List Nat → Bool
  | _, [] => false
  | [], _ :: _ => true
  | a :: as, b :: bs => a < b || (a == b && bytesLt as bs)

/-- Insertion index of `binary_search`: the number of stored elements
strictly below the key (its documented `Err` payload on a sorted
duplicate-free vector). -/
def insertionPoint (modules : List (List Nat)) (key : List Nat) : Nat :=
  modules.countP (fun m => bytesLt m key)

/-- Rust slice indexing `l.get(a..b)`: `some` of the sub-slice when the
range is in bounds, `none` otherwise. -/
def sliceGet (l : List Nat) (a b : Nat) : Option (List Nat) :=
  if a ≤ b ∧ b ≤ l.length then some ((l.drop a).take (b - a)) else none

/-- `is_submodule` (src/lib.rs lines 369-389): `parent` must not be
byte-longer than `possible_child`, the first `parent.len()` bytes must agree,
and either the lengths are equal or the two bytes of `possible_child`
following the shared prefix are `b"::"`. -/
def is_submodule (parent possible_child : List Nat) : Bool :=
  if parent.length > possible_child.length then false
  else if possible_child.take parent.length ≠ parent then false
  else parent.length == possible_child.length
    || sliceGet possible_child parent.length (parent.length + 2) == some [58, 58]

/-- Action of `StdErrLog::_module` (src/lib.rs lines 288-305) on the
`modules` vector.  If the module is already present it is a no-op; otherwise
`i` is the `binary_search` insertion index, and unless the element at `i-1`
is an ancestor of the new module, the run of stored descendants of the new
module starting at `i` is drained and the module is inserted at `i`. -/
def insertModule (modules : List (List Nat)) (module : List Nat) : List (List Nat) :=
  if module ∈ modules then modules
  else
    let i := insertionPoint modules module
    if i == 0 || ! is_submodule (modules.getD (i - 1) []) module then
      let submodule_count :=
        ((modules.drop i).takeWhile (fun possible_submodule =>
          is_submodule module possible_submodule)).length
      modules.take i ++ module :: modules.drop (i + submodule_count)
    else modules

/-- `StdErrLog::includes_module` (src/lib.rs lines 325-346) as a function of
the `modules` vector: an empty vector includes every path; an exact
`binary_search` hit includes the path; otherwise only the element directly
before the insertion index is tested as an ancestor. -/
def includes_module (modules : List (List Nat)) (module_path : List Nat) : Bool :=
  if modules.isEmpty then true
  else if module_path ∈ modules then true
  else
    let i := insertionPoint modules module_path
    if i == 0 then false
    else is_submodule (modules.getD (i - 1) []) module_path

/-- Log levels of the `log` crate (Error = 1 .. Trace = 5). -/
inductive LogLevel
  | error
  | warn
  | info
  | debug
  | trace
  deriving DecidableEq

/-- The numeric value used by the `log` crate to compare levels. -/
def LogLevel.toNat : LogLevel → Nat
  | .error => 1
  | .warn => 2
  | .info => 3
  | .debug => 4
  | .trace => 5

/-- Log level filters of the `log` crate (Off = 0 .. Trace = 5). -/
inductive LogLevelFilter
  | off
  | error
  | warn
  | info
  | debug
  | trace
  deriving DecidableEq

/-- The numeric value used by the `log` crate to compare a level with a
filter. -/
def LogLevelFilter.toNat : LogLevelFilter → Nat
  | .off => 0
  | .error => 1
  | .warn => 2
  | .info => 3
  | .debug => 4
  | .trace => 5

/-- Timestamp granularity (src/lib.rs lines 146-156). -/
inductive Timestamp
  | off
  | second
  | microsecond
  | nanosecond
  deriving DecidableEq

/-- `termcolor::ColorChoice`. -/
inductive ColorChoice
  | always
  | alwaysAnsi
  | auto
  | never
  deriving DecidableEq

/-- The per-thread writer cache (`CachedThreadLocal<RefCell<LineWriter<..>>>`),
modelled abstractly by the list of thread slots it holds; a freshly
constructed cache holds none. -/
structure CachedThreadLocal where
  entries : List Nat
  deriving DecidableEq

/-- `CachedThreadLocal::new()`: an empty cache. -/
def CachedThreadLocal.new : CachedThreadLocal :=
  { entries := [] }

/-- The logger configuration (src/lib.rs lines 159-166). -/
structure StdErrLog where
  verbosity : LogLevelFilter
  quiet : Bool
  timestamp : Timestamp
  modules : List (List Nat)
  writer : CachedThreadLocal
  color_choice : ColorChoice

/-- `StdErrLog::new` (src/lib.rs lines 240-249). -/
def StdErrLog.new : StdErrLog :=
  { verbosity := .error
    quiet := false
    timestamp := .off
    modules := []
    writer := CachedThreadLocal.new
    color_choice := .auto }

/-- `StdErrLog::verbosity` (src/lib.rs lines 252-263): saturating map from
the repeat-count to a level filter. -/
def StdErrLog.setVerbosity (s : StdErrLog) (verbosity : Nat) : StdErrLog :=
  { s with
    verbosity :=
      match verbosity with
      | 0 => .error
      | 1 => .warn
      | 2 => .info
      | 3 => .debug
      | _ => .trace }

/-- `StdErrLog::quiet` (src/lib.rs lines 266-269). -/
def StdErrLog.setQuiet (s : StdErrLog) (quiet : Bool) : StdErrLog :=
  { s with quiet := quiet }

/-- `StdErrLog::timestamp` (src/lib.rs lines 272-275). -/
def StdErrLog.setTimestamp (s : StdErrLog) (t : Timestamp) : StdErrLog :=
  { s with timestamp := t }

/-- `StdErrLog::color` (src/lib.rs lines 278-281). -/
def StdErrLog.setColor (s : StdErrLog) (c : ColorChoice) : StdErrLog :=
  { s with color_choice := c }

/-- `StdErrLog::_module` (src/lib.rs lines 288-305) on the logger. -/
def StdErrLog.modCall (s : StdErrLog) (module : List Nat) : StdErrLog :=
  { s with modules := insertModule s.modules module }

/-- `StdErrLog::log_level_filter` (src/lib.rs lines 317-323). -/
def StdErrLog.log_level_filter (s : StdErrLog) : LogLevelFilter :=
  if s.quiet then .off else s.verbosity

/-- `<StdErrLog as log::Log>::enabled` (src/lib.rs lines 192-194):
`metadata.level() <= self.log_level_filter() && self.includes_module(..)`,
where the `log` crate compares a level with a filter by numeric value. -/
def StdErrLog.enabled (s : StdErrLog) (level : LogLevel) (target : List Nat) : Bool :=
  decide (level.toNat ≤ (s.log_level_filter).toNat) && includes_module s.modules target

/-- `<StdErrLog as Clone>::clone` (src/lib.rs lines 181-189): every field is
copied (`.. *self`, with `modules` cloned to an equal vector) except `writer`,
which is a fresh `CachedThreadLocal::new()`. -/
def StdErrLog.clone (s : StdErrLog) : StdErrLog :=
  { s with
    modules := s.modules
    writer := CachedThreadLocal.new }

/-- The module vector reached by a sequence of `module` calls starting from
the freshly constructed (empty) logger. -/
def buildSet (paths : List (List Nat)) : List (List Nat) :=
  paths.foldl insertModule []

/-- The spec's ancestor relation on paths: `q` equals `p`, or `q` is `p`
followed by the separator "::" and a remainder. -/
def isAncestor (p q : List Nat) : Prop :=
  q = p ∨ ∃ r, q = p ++ [58, 58] ++ r

instance (p q : List Nat) : Decidable (isAncestor p q) := by
  unfold isAncestor
  refine
    decidable_of_iff (q = p ∨ (p.length + 2 ≤ q.length ∧
      q.take (p.length + 2) = p ++ [58, 58])) (or_congr Iff.rfl ⟨?_, ?_⟩)
  · rintro ⟨hlen, htake⟩
    exact ⟨q.drop (p.length + 2), by
      conv_lhs => rw [← List.take_append_drop (p.length + 2) q]
      rw [htake]⟩
  · rintro ⟨r, rfl⟩
    exact ⟨by simp, List.take_left' (by simp)⟩

-- Byte strings used in concrete evaluations.

/-- The bytes of "foo". -/
def strFoo : List Nat := [102, 111, 111]

/-- The bytes of "foo2". -/
def strFoo2 : List Nat := [102, 111, 111, 50]

/-- The bytes of "foo::x". -/
def strFooX : List Nat := [102, 111, 111, 58, 58, 120]

/-- The bytes of "foo::y". -/
def strFooY : List Nat := [102, 111, 111, 58, 58, 121]

/-- The bytes of "a". -/
def strA : List Nat := [97]

/-- The bytes of "a::b". -/
def strAB : List Nat := [97, 58, 58, 98]

/-- The bytes of "net". -/
def strNet : List Nat := [110, 101, 116]

/-- The bytes of "network". -/
def strNetwork : List Nat := [110, 101, 116, 119, 111, 114, 107]

/-- Helper: `is_submodule` decides exactly the spec's ancestor relation. -/
theorem is_submodule_iff (P Q : List Nat) : is_submodule P Q = true ↔ isAncestor P Q := by
  have hanc : isAncestor P Q ↔ (Q = P ∨ ∃ r, Q = P ++ [58, 58] ++ r) := Iff.rfl
  rw [hanc]
  by_cases h1 : P.length > Q.length
  · rw [is_submodule, if_pos h1]
    simp only [Bool.false_eq_true, false_iff]
    rintro (rfl | ⟨r, rfl⟩)
    · exact lt_irrefl _ h1
    · simp only [List.length_append, List.length_cons, List.length_nil] at h1
      omega
  · by_cases h2 : Q.take P.length = P
    · rw [is_submodule, if_neg h1, if_neg (by simpa using h2)]
      rw [Bool.or_eq_true, beq_iff_eq, beq_iff_eq]
      constructor
      · rintro (hl | hs)
        · left
          rw [← h2, hl, List.take_length]
        · right
          rw [sliceGet] at hs
          split at hs
          · rename_i hb
            simp only [Option.some.injEq] at hs
            have h2' : P.length + 2 - P.length = 2 := by omega
            rw [h2'] at hs
            refine ⟨(Q.drop P.length).drop 2, ?_⟩
            conv_lhs => rw [← List.take_append_drop P.length Q]
            rw [h2, List.append_assoc]
            congr 1
            conv_lhs => rw [← List.take_append_drop 2 (Q.drop P.length)]
            rw [hs]
          · exact absurd hs (by simp)
      · rintro (rfl | ⟨r, rfl⟩)
        · left
          rfl
        · right
          rw [sliceGet]
          have hlen : P.length + 2 ≤ ((P ++ [58, 58]) ++ r).length := by
            simp only [List.length_append, List.length_cons, List.length_nil]
            omega
          rw [if_pos ⟨by omega, hlen⟩]
          have hdrop : ((P ++ [58, 58]) ++ r).drop P.length = [58, 58] ++ r := by
            rw [List.append_assoc]
            exact List.drop_left' rfl
          have h2' : P.length + 2 - P.length = 2 := by omega
          rw [hdrop, h2']
          rfl
    · rw [is_submodule, if_neg h1, if_pos (by simpa using h2)]
      simp only [Bool.false_eq_true, false_iff]
      rintro (rfl | ⟨r, rfl⟩)
      · exact h2 (List.take_length Q)
      · apply h2
        rw [List.append_assoc]
        exact List.take_left' rfl

/-- Helper: a byte string starts with "::" exactly when it is "::" followed
by a remainder. -/
theorem take_two_sep_iff (q : List Nat) :
    q.take 2 = [58, 58] ↔ ∃ r, q = 58 :: 58 :: r := by
  constructor
  · intro h
    refine ⟨q.drop 2, ?_⟩
    conv_lhs => rw [← List.take_append_drop 2 q]
    rw [h]
    rfl
  · rintro ⟨r, rfl⟩
    rfl

/-- C3: `is_submodule(P, Q)` is true exactly when `Q` equals `P` or `Q`
begins with `P` followed by the separator "::"; in particular a bare byte
prefix without a separator boundary ("net" / "network") is rejected, and a
byte-longer `P` is never an ancestor. -/
theorem c3_is_submodule_characterization :
    (∀ P Q : List Nat, is_submodule P Q = true ↔ isAncestor P Q) ∧
    is_submodule strNet strNetwork = false ∧
    (∀ P Q : List Nat, Q.length < P.length → is_submodule P Q = false) := by
  refine ⟨is_submodule_iff, by decide, ?_⟩
  intro P Q h
  rw [is_submodule, if_pos h]

/-- Witness for C3: the length-hypothesis part applied at "network"/"net". -/
theorem c3_witness : is_submodule strNetwork strNet = false :=
  c3_is_submodule_characterization.2.2 strNetwork strNet (by decide)

/-- Helper: inserting a module either leaves it present in the result or is
a no-op. -/
theorem insertModule_mem_or_eq (S : List (List Nat)) (m : List Nat) :
    m ∈ insertModule S m ∨ insertModule S m = S := by
  simp only [insertModule]
  split
  · left
    assumption
  · split
    · left
      exact List.mem_append_right _ (List.mem_cons_self _ _)
    · right
      rfl

/-- Helper: inserting an already-present module is a no-op. -/
theorem insertModule_of_mem {S : List (List Nat)} {m : List Nat} (h : m ∈ S) :
    insertModule S m = S := by
  rw [insertModule, if_pos h]

/-- Helper: `insertModule` is idempotent on every vector. -/
theorem insertModule_idem (S : List (List Nat)) (m : List Nat) :
    insertModule (insertModule S m) m = insertModule S m := by
  rcases insertModule_mem_or_eq S m with h | h
  · exact insertModule_of_mem h
  · rw [h]
    exact h

/-- C7: `_module` is idempotent: registering the same module path twice in
succession yields the same logger state as registering it once. -/
theorem c7_module_insert_idempotent (s : StdErrLog) (m : List Nat) :
    (s.modCall m).modCall m = s.modCall m := by
  simp only [StdErrLog.modCall, insertModule_idem]

/-- C4: `enabled(level, target)` is true iff the level is at most the
effective threshold and the module filter includes the target, where the
effective threshold is Off when the quiet flag is set and the stored
verbosity otherwise; Off (numeric value 0) is strictly below every level. -/
theorem c4_enabled_characterization :
    (∀ (s : StdErrLog) (level : LogLevel) (target : List Nat),
      s.enabled level target = true ↔
        (level.toNat ≤ (s.log_level_filter).toNat ∧
          includes_module s.modules target = true)) ∧
    (∀ s : StdErrLog,
      s.log_level_filter = if s.quiet then LogLevelFilter.off else s.verbosity) ∧
    (∀ level : LogLevel, LogLevelFilter.off.toNat < level.toNat) := by
  refine ⟨?_, fun s => rfl, ?_⟩
  · intro s level target
    simp [StdErrLog.enabled]
  · intro level
    cases level <;> decide

/-- C5: the `verbosity` builder maps the repeat-count by saturation:
0 to Error, 1 to Warn, 2 to Info, 3 to Debug, and everything from 4 on to
Trace. -/
theorem c5_verbosity_mapping :
    ∀ s : StdErrLog,
      (s.setVerbosity 0).verbosity = LogLevelFilter.error ∧
      (s.setVerbosity 1).verbosity = LogLevelFilter.warn ∧
      (s.setVerbosity 2).verbosity = LogLevelFilter.info ∧
      (s.setVerbosity 3).verbosity = LogLevelFilter.debug ∧
      (∀ n : Nat, 4 ≤ n → (s.setVerbosity n).verbosity = LogLevelFilter.trace) := by
  intro s
  refine ⟨rfl, rfl, rfl, rfl, ?_⟩
  intro n hn
  match n, hn with
  | n + 4, _ => rfl

/-- Witness for C5: the saturating branch applied at repeat-count 7. -/
theorem c5_witness : (StdErrLog.new.setVerbosity 7).verbosity = LogLevelFilter.trace :=
  (c5_verbosity_mapping StdErrLog.new).2.2.2.2 7 (by decide)

/-- C6: with the quiet flag set, `enabled` is false for every level and
every target, the stored verbosity field is untouched, and clearing the
flag again restores the stored verbosity as the effective threshold. -/
theorem c6_quiet_overrides :
    ∀ (s : StdErrLog) (level : LogLevel) (target : List Nat),
      (s.setQuiet true).enabled level target = false ∧
      (s.setQuiet true).verbosity = s.verbosity ∧
      ((s.setQuiet true).setQuiet false).log_level_filter = s.verbosity := by
  intro s level target
  exact ⟨by cases level <;> rfl, rfl, rfl⟩

/-- C9: `clone` copies the verbosity, quiet flag, timestamp mode, color
mode and module vector unchanged, and gives the clone a fresh, empty
per-thread writer cache. -/
theorem c9_clone_semantics (s : StdErrLog) :
    (s.clone).verbosity = s.verbosity ∧
    (s.clone).quiet = s.quiet ∧
    (s.clone).timestamp = s.timestamp ∧
    (s.clone).color_choice = s.color_choice ∧
    (s.clone).modules = s.modules ∧
    (s.clone).writer = CachedThreadLocal.new ∧
    (s.clone).writer.entries = [] :=
  ⟨rfl, rfl, rfl, rfl, rfl, rfl, rfl⟩

/-- C10: inserting the empty path into the empty set stores exactly the
empty path, and thereafter a path is included exactly when it is empty or
starts with "::"; an ordinary path such as "a" is excluded. -/
theorem c10_empty_string_edge :
    insertModule [] [] = [[]] ∧
    (∀ q : List Nat,
      includes_module [[]] q = true ↔ (q = [] ∨ q.take 2 = [58, 58])) ∧
    includes_module [[]] strA = false := by
  refine ⟨by decide, ?_, by decide⟩
  intro q
  cases q with
  | nil => simp [includes_module]
  | cons a q =>
    have h1 : includes_module [[]] (a :: q) = is_submodule [] (a :: q) := by
      simp [includes_module, insertionPoint, List.countP_cons, bytesLt]
    rw [h1, is_submodule_iff]
    have hanc : isAncestor [] (a :: q) ↔
        (a :: q = [] ∨ ∃ r, a :: q = [58, 58] ++ r) := Iff.rfl
    rw [hanc, take_two_sep_iff]
    simp

/-- C1 (failing evaluation): `includes_module` on the empty set accepts
every path, but after inserting "foo2" and then "foo" the query "foo::y" —
a descendant of the inserted path "foo" — is rejected: the lookup only
tests the element directly before the insertion index, which is "foo2",
not the true ancestor "foo". -/
theorem c1_includes_misses_descendant :
    (∀ q : List Nat, includes_module [] q = true) ∧
    buildSet [strFoo2, strFoo] = [strFoo, strFoo2] ∧
    strFoo ∈ [strFoo2, strFoo] ∧
    isAncestor strFoo strFooY ∧
    includes_module (buildSet [strFoo2, strFoo]) strFooY = false :=
  ⟨fun _ => rfl, by decide, by decide, by decide, by decide⟩

/-- C2 (failing evaluation): building the set by inserting "foo::x",
"foo2", "foo" in that order yields the stored vector
["foo", "foo2", "foo::x"], which contains both "foo" and its descendant
"foo::x": the descendant drain stops at the non-descendant "foo2", so the
antichain invariant is violated. -/
theorem c2_antichain_violated :
    buildSet [strFooX, strFoo2, strFoo] = [strFoo, strFoo2, strFooX] ∧
    strFoo ∈ buildSet [strFooX, strFoo2, strFoo] ∧
    strFooX ∈ buildSet [strFooX, strFoo2, strFoo] ∧
    is_submodule strFoo strFooX = true ∧
    isAncestor strFoo strFooX := by decide

/-- C8 (failing evaluation): the concrete scenario holds — inserting
"a::b" and then "a" leaves exactly ["a"] — but the general statement
fails: inserting the ancestor "foo" into the stored set
["foo2", "foo::x"] keeps the descendant "foo::x", because the drain of
descendants stops at the intervening non-descendant "foo2". -/
theorem c8_absorption_evaluation :
    buildSet [strAB, strA] = [strA] ∧
    buildSet [strFooX, strFoo2] = [strFoo2, strFooX] ∧
    insertModule (buildSet [strFooX, strFoo2]) strFoo = [strFoo, strFoo2, strFooX] ∧
    strFooX ∈ insertModule (buildSet [strFooX, strFoo2]) strFoo ∧
    is_submodule strFoo strFooX = true := by decide
